import Mathlib

/-!
Verification of the `ppcg_qc_from_sanger` QC-extraction core.

This file shallowly embeds the two source modules
`ppcg_qc_from_sanger/extract_qc.py` and `ppcg_qc_from_sanger/command_line.py`.
Pure Python functions become Lean functions; filesystem access is modelled by
an explicit `FS` value passed to each function; fallible Python code returns
`Except Err`.  Helpers imported from modules of the repository that are not
part of the two source files (`check_file_exists`, `get_abs_path`, and the
static methods of `SangerQcMetricsExtractor`) are modelled from the spec and
say so in their doc comments.

Python regular expressions used by the source are embedded faithfully:
`re.match` anchors at the start of the string only, `$` also matches just
before a single final newline, `\w` is modelled by its ASCII core
(letters, digits, underscore), and group captures are greedy.
-/

namespace PpcgQc

/-- What a filesystem path can hold: nothing, a directory with its immediate
entry names in listing order, a BAS statistics file (with a flag saying
whether its content passes the format check, and the sample name recorded in
it), a gzip tar archive with its member names in internal order, or some
other regular file. -/
inductive FileKind where
  | absent
  | dir (entries : List String)
  | basFile (valid : Bool) (sample : String)
  | tarFile (members : List String)
  | otherFile
  deriving DecidableEq, Repr

/-- The ambient filesystem: the process working directory, the kind of object
at every absolute path, and for the output pre-flight whether `open(p, 'w')`
succeeds in creating a file at `p` and whether writing to it then succeeds. -/
structure FS where
  cwd : String
  kind : String → FileKind
  canCreate : String → Bool
  writeOk : String → Bool

/-- Whether `s` starts with `pre` (computable by plain list recursion). -/
def strStartsWith (s pre : String) : Bool :=
  s.data.take pre.data.length == pre.data

/-- Whether `s` ends with `suf` (computable by plain list recursion). -/
def strEndsWith (s suf : String) : Bool :=
  s.data.drop (s.data.length - suf.data.length) == suf.data &&
    decide (suf.data.length ≤ s.data.length)

/-- Resolve a possibly relative path against the working directory, as
`os.path.abspath` does (without `..` normalisation, which the source never
relies on). -/
def FS.resolve (fs : FS) (p : String) : String :=
  if strStartsWith p "/" then p else fs.cwd ++ "/" ++ p

def FS.kindAt (fs : FS) (p : String) : FileKind :=
  fs.kind (fs.resolve p)

/-- `os.path.exists`. -/
def FS.existsAt (fs : FS) (p : String) : Bool :=
  match fs.kindAt p with
  | .absent => false
  | _ => true

/-- `os.path.isdir`. -/
def FS.isDirAt (fs : FS) (p : String) : Bool :=
  match fs.kindAt p with
  | .dir _ => true
  | _ => false

/-- `os.listdir` (empty for non-directories; the source only calls it on
directories). -/
def FS.entriesAt (fs : FS) (p : String) : List String :=
  match fs.kindAt p with
  | .dir es => es
  | _ => []

/-- The errors the embedded code can surface.  The source raises Python
exceptions (`RuntimeError` with a message, `FileNotFoundError`,
`UnboundLocalError`, `TypeError`, `AttributeError`); each constructor stands
for one of the distinct raise sites / exception categories, carrying the data
the message would carry. -/
inductive Err where
  | notFound (p : String)
  | validation (p : String)
  | tarReadError (p : String)
  | genomeSizeNotInt
  | existingOutput (p : String)
  | outputNotWritable (p : String)
  | removeNotFound (p : String)
  | invalidArchive (p : String)
  | missingSample (role : String) (names : List String)
  | unboundLocal (v : String)
  | typeError (msg : String)
  | attributeError (name : String)
  | packaging (msg : String)
  deriving DecidableEq, Repr

/-- Observable milestones of a run, used to state ordering properties
("before any input parsing", "before any extraction begins"). -/
inductive Event where
  | beganInputParsing
  | startedPair (key : String × String)
  deriving DecidableEq, Repr

/-- A value held by an attribute of the `argparse` namespace object. -/
inductive AttrVal where
  | str (s : String)
  | strList (l : List String)
  | int (n : Int)
  | bool (b : Bool)
  | none_
  deriving DecidableEq, Repr

/-- The `argparse` namespace: attribute name to value. -/
abbrev Attrs := List (String × AttrVal)

/-- Python attribute access `args.name`: raises `AttributeError` when the
namespace has no such attribute. -/
def getattrE (args : Attrs) (name : String) : Except Err AttrVal :=
  match args.lookup name with
  | some v => .ok v
  | none => .error (.attributeError name)

/-- Python truthiness of the attribute values we model. -/
def truthy : AttrVal → Bool
  | .str s => s ≠ ""
  | .strList l => !l.isEmpty
  | .int n => n ≠ 0
  | .bool b => b
  | .none_ => false

/-- Iterating an attribute value as the source does with `for path in ...`:
a list yields its elements; a string yields its characters as one-character
strings (Python string iteration); other values are not iterable. -/
def asPathList : AttrVal → Except Err (List String)
  | .strList l => .ok l
  | .str s => .ok (s.data.map (fun c => String.mk [c]))
  | _ => .error (.typeError "object is not iterable")

/-! ### Regular-expression models -/

/-- The character class `[\w\-]` of the pairing pattern (ASCII core of `\w`
plus hyphen). -/
def isWordHyphenChar (c : Char) : Bool :=
  c.isAlphanum || c == '_' || c == '-'

/-- Python `$` also matches just before one final newline; matching a
fully-anchored pattern against `s` is matching its core against `s` with one
final newline removed. -/
def stripFinalNewline (l : List Char) : List Char :=
  if l.getLast? = some '\n' then l.dropLast else l

/-- Whether splitting `l` at index `i` as `group1 ++ "_vs_" ++ group2` yields
a valid match of `([\w\-]+)_vs_([\w\-]+)` consuming all of `l`. -/
def pairSplitOk (l : List Char) (i : Nat) : Bool :=
  decide (0 < i) && (l.take i).all isWordHyphenChar &&
    ((l.drop i).take 4 == "_vs_".data) &&
    !(l.drop (i + 4)).isEmpty && (l.drop (i + 4)).all isWordHyphenChar

/-- The split index a greedy regex engine chooses for
`([\w\-]+)_vs_([\w\-]+)$`: the largest valid split (group 1 is greedy). -/
def greedyIndex (l : List Char) : Option Nat :=
  ((List.range (l.length + 1)).reverse).find? (pairSplitOk l)

/-- `re.match(r'^WGS_([\w\-]+)_vs_([\w\-]+)$', s)`, returning the two
captured groups. -/
def matchPairName (s : String) : Option (String × String) :=
  let l := stripFinalNewline s.data
  if l.take 4 == "WGS_".data then
    match greedyIndex (l.drop 4) with
    | some i => some (⟨(l.drop 4).take i⟩, ⟨(l.drop 4).drop (i + 4)⟩)
    | none => none
  else none

/-- `re.match(r'.+' ++ suffix ++ '$', s)` for a literal (dot-escaped)
`suffix`: at least one leading non-newline character, then the suffix,
then end of string. -/
def matchDotPlusSuffix (suffix : List Char) (s : String) : Bool :=
  let l := stripFinalNewline s.data
  decide (suffix.length + 1 ≤ l.length) &&
    (l.drop (l.length - suffix.length) == suffix) &&
    (l.take (l.length - suffix.length)).all (fun c => c != '\n')

/-- `re.match(r'.+\.bam\.bas$', name)` — the BAS statistics-file name
filter. -/
def matchBasName (s : String) : Bool :=
  matchDotPlusSuffix ".bam.bas".data s

/-- `re.match(r'.+\.tsv$', name)` — the metadata file name filter. -/
def matchTsvName (s : String) : Bool :=
  matchDotPlusSuffix ".tsv".data s

/-- `re.match(r'\.tar.gz$', name)` — the variant-call archive name filter.
`re.match` anchors at the start, so the whole name must be seven characters:
literal `.tar`, any non-newline character (the unescaped dot), then `gz`. -/
def matchTarName (s : String) : Bool :=
  match stripFinalNewline s.data with
  | ['.', 't', 'a', 'r', e, 'g', 'z'] => e != '\n'
  | _ => false

/-! ### External helpers of the repository that are not in the two source
files, modelled from the spec -/

/-- Modelled from the spec: `check_file_exists` (imported by `extract_qc.py`
from the package `__init__`, which is not among the source files) "fails with
`NotFoundError` if a path does not exist" (spec section 4.1 / 7). -/
def check_file_exists (fs : FS) (p : String) : Except Err Unit :=
  if fs.existsAt p then .ok () else .error (.notFound p)

/-- Modelled from the spec: `get_abs_path` (imported from the package
`__init__`, not among the source files) resolves a path to an absolute one,
as `os.path.abspath` does. -/
def get_abs_path (fs : FS) (p : String) : String :=
  fs.resolve p

/-- Modelled from the spec: `SangerQcMetricsExtractor.validate_bas` (the
metrics-extractor module is not among the source files) runs the statistics
file through a format check; a path that does not hold a parseable BAS file
fails with `ValidationError` (spec section 4.1), and a path that cannot be
opened at all fails like a missing input. -/
def validate_bas (fs : FS) (p : String) : Except Err Unit :=
  match fs.kindAt p with
  | .basFile true _ => .ok ()
  | .absent => .error (.notFound p)
  | _ => .error (.validation p)

/-- Modelled from the spec: `SangerQcMetricsExtractor.validate_tar_name`
(not among the source files) requires the `.tar.gz` extension
("requires '.tar.gz' extension", `command_line.py` help text). -/
def validate_tar_name (p : String) : Except Err Unit :=
  if strEndsWith p ".tar.gz" then .ok () else .error (.validation p)

/-- Modelled from the spec: the composition
`SangerQcMetricsExtractor.get_sample_name_from_bas (get_bas_content bas)`
(not among the source files) reads the sample identifier recorded in a BAS
statistics file (spec sections 3 and 6). -/
def get_bas_sample_name (fs : FS) (p : String) : Except Err String :=
  match fs.kindAt p with
  | .basFile _ sample => .ok sample
  | .absent => .error (.notFound p)
  | _ => .error (.validation p)

/-- `tarfile.open(a_tar, 'r:gz')` followed by `tar.getmembers()`: the member
names of a gzip tar archive in internal order; opening anything else fails. -/
def openTarMembers (fs : FS) (p : String) : Except Err (List String) :=
  match fs.kindAt p with
  | .tarFile members => .ok members
  | .absent => .error (.notFound p)
  | _ => .error (.tarReadError p)

/-- Python subscript `t[k]` on a tuple with a tuple key always raises
`TypeError` (tuple indices must be integers); the result type `Empty` records
that it can never succeed. -/
def tuple_subscript_by_pair (_t : Int × Int) (_key : String × String) :
    Except Err Empty :=
  .error (.typeError "tuple indices must be integers or slices, not tuple")

/-! ### `extract_qc.py`: module-level data and helper functions -/

/-- `extract_qc.py` lines 58-112: the fixed base output schema
(`OUTPUT_HEADER`). -/
def OUTPUT_HEADER : List String := [
  "Tumour sample name",
  "Tumour ID",
  "Tumour UUID",
  "Tumour sequencing year",
  "Tumour sequencer",
  "Tumour ReadGroup IDs",
  "Tumour depth per RG",
  "Tumour total depth",
  "Tumour fraction of mapped reads per RG",
  "Tumour mean fraction of mapped reads",
  "Tumour insert size per RG",
  "Tumour mean Insert size",
  "Tumour insert size sd per RG",
  "Tumour mean insert size sd",
  "Tumour r1 GC content per RG",
  "Tumour mean r1 GC content",
  "Tumour r2 GC content per RG",
  "Tumour mean r2 GC content",
  "Tumour fraction of duplicated reads per RG",
  "Tumour mean fraction of duplicated reads",
  "Tumour fraction of mis-matched pairs per RG",
  "Tumour mean fraction of mis-matched pairs",
  "Tumour contamination per RG",
  "Tumour mean contamination",
  "Tumour sex",
  "Tumour fraction of matched sex with Normal",
  "Tumour fraction of matched genotype with Normal",
  "Normal contamination in Tumour",
  "Normal sample name",
  "Normal ID",
  "Normal UUID",
  "Normal sequencing year",
  "Normal sequencer",
  "Normal ReadGroup IDs",
  "Normal depth per RG",
  "Normal total depth",
  "Normal fraction of mapped reads per RG",
  "Normal mean fraction of mapped reads",
  "Normal insert size per RG",
  "Normal mean Insert size",
  "Normal insert size sd per RG",
  "Normal mean insert size sd",
  "Normal r1 GC content per RG",
  "Normal mean r1 GC content",
  "Normal r2 GC content per RG",
  "Normal mean r2 GC content",
  "Normal fraction of duplicated reads per RG",
  "Normal mean fraction of duplicated reads",
  "Normal fraction of mis-matched pairs per RG",
  "Normal mean fraction of mis-matched pairs",
  "Normal contamination per RG",
  "Normal mean contamination",
  "Donor ID",
  "Donor UUID"]

/-- `extract_qc.py` lines 114-115: the variant-count column names
(`VARIANT_COUNT_HEADER`). -/
def VARIANT_COUNT_HEADER : List String := [
  "Number of SNVs (PASS/All)",
  "Number of INDELs (PASS/All)",
  "Number of SVs (PASS/All)",
  "Number of CNVs"]

/-- The PairKey to archive-path map (a Python `dict` with insertion order). -/
abbrev PairDict := List ((String × String) × String)

/-- A sample-name to BAS-file-path map (a Python `dict`). -/
abbrev SampleDict := List (String × String)

/-- Python `dict` assignment `d[k] = v`: replaces the value in place when the
key exists (keeping its position), appends the new binding otherwise. -/
def dictInsert {κ ν : Type} [DecidableEq κ] (d : List (κ × ν)) (k : κ)
    (v : ν) : List (κ × ν) :=
  if d.any (fun kv => kv.1 == k) then
    d.map (fun kv => if kv.1 == k then (k, v) else kv)
  else d ++ [(k, v)]

/-- `extract_qc.py` lines 211-214: the directory branch of `get_all_bas`.
Note the source tests `os.path.isdir(a_file)` and validates `a_file` on the
bare entry name, which resolves against the process working directory, not
against the directory being scanned. -/
def get_all_bas_dir (fs : FS) : List String → Except Err (List String)
  | [] => .ok []
  | a_file :: rest =>
    if !fs.isDirAt a_file && matchBasName a_file then
      match validate_bas fs a_file with
      | .error e => .error e
      | .ok _ =>
        match get_all_bas_dir fs rest with
        | .error e => .error e
        | .ok more => .ok (get_abs_path fs a_file :: more)
    else get_all_bas_dir fs rest

/-- `extract_qc.py` lines 205-218: `get_all_bas`. -/
def get_all_bas (fs : FS) : List String → Except Err (List String)
  | [] => .ok []
  | path :: rest =>
    match check_file_exists fs path with
    | .error e => .error e
    | .ok _ =>
      match
        (if fs.isDirAt path then get_all_bas_dir fs (fs.entriesAt path)
         else
           match validate_bas fs path with
           | .error e => .error e
           | .ok _ => .ok [get_abs_path fs path]) with
      | .error e => .error e
      | .ok here =>
        match get_all_bas fs rest with
        | .error e => .error e
        | .ok more => .ok (here ++ more)

/-- `extract_qc.py` lines 227-229: the directory branch of
`get_all_variant_call_tar` (again testing `isdir` and matching on the bare
entry name). -/
def get_all_variant_call_tar_dir (fs : FS) :
    List String → Except Err (List String)
  | [] => .ok []
  | a_file :: rest =>
    if !fs.isDirAt a_file && matchTarName a_file then
      match get_all_variant_call_tar_dir fs rest with
      | .error e => .error e
      | .ok more => .ok (get_abs_path fs a_file :: more)
    else get_all_variant_call_tar_dir fs rest

/-- `extract_qc.py` lines 221-233: `get_all_variant_call_tar`. -/
def get_all_variant_call_tar (fs : FS) :
    List String → Except Err (List String)
  | [] => .ok []
  | path :: rest =>
    match check_file_exists fs path with
    | .error e => .error e
    | .ok _ =>
      match
        (if fs.isDirAt path then
           get_all_variant_call_tar_dir fs (fs.entriesAt path)
         else
           match validate_tar_name path with
           | .error e => .error e
           | .ok _ => .ok [get_abs_path fs path]) with
      | .error e => .error e
      | .ok here =>
        match get_all_variant_call_tar fs rest with
        | .error e => .error e
        | .ok more => .ok (here ++ more)

/-- `extract_qc.py` lines 290-292: the directory branch of `get_all_meta`. -/
def get_all_meta_dir (fs : FS) : List String → List String
  | [] => []
  | a_file :: rest =>
    if !fs.isDirAt a_file && matchTsvName a_file then
      get_abs_path fs a_file :: get_all_meta_dir fs rest
    else get_all_meta_dir fs rest

/-- `extract_qc.py` lines 284-295: `get_all_meta` (no per-file validation in
the non-directory branch). -/
def get_all_meta (fs : FS) : List String → Except Err (List String)
  | [] => .ok []
  | path :: rest =>
    match check_file_exists fs path with
    | .error e => .error e
    | .ok _ =>
      let here :=
        if fs.isDirAt path then get_all_meta_dir fs (fs.entriesAt path)
        else [get_abs_path fs path]
      match get_all_meta fs rest with
      | .error e => .error e
      | .ok more => .ok (here ++ more)

/-- `extract_qc.py` lines 259-273: the loop body of `get_all_t_n_pairs`,
accumulating the PairKey to archive map.  The source scans the member names
and breaks at the first one matching the pairing pattern
(`List.findSome? matchPairName`); `if not t_name` is equivalent to the
no-match case because a captured group is never empty. -/
def get_all_t_n_pairs_go (fs : FS) (acc : PairDict) :
    List String → Except Err PairDict
  | [] => .ok acc
  | a_tar :: rest =>
    match openTarMembers fs a_tar with
    | .error e => .error e
    | .ok all_files =>
      match all_files.findSome? matchPairName with
      | none => .error (.invalidArchive a_tar)
      | some (t_name, n_name) =>
        get_all_t_n_pairs_go fs (dictInsert acc (t_name, n_name) a_tar) rest

/-- `extract_qc.py` lines 257-274: `get_all_t_n_pairs`. -/
def get_all_t_n_pairs (fs : FS) (variant_call_tars : List String) :
    Except Err PairDict :=
  get_all_t_n_pairs_go fs [] variant_call_tars

/-- `extract_qc.py` lines 277-281: the dict comprehension of
`get_sample_names_bas_file_dict`, in file order. -/
def get_sample_names_bas_file_dict_go (fs : FS) (acc : SampleDict) :
    List String → Except Err SampleDict
  | [] => .ok acc
  | bas :: rest =>
    match get_bas_sample_name fs bas with
    | .error e => .error e
    | .ok sample =>
      get_sample_names_bas_file_dict_go fs (dictInsert acc sample bas) rest

/-- `extract_qc.py` lines 277-281: `get_sample_names_bas_file_dict`. -/
def get_sample_names_bas_file_dict (fs : FS) (bas_list : List String) :
    Except Err SampleDict :=
  get_sample_names_bas_file_dict_go fs [] bas_list

/-- Insertion into a sorted list of strings (Python string order is
lexicographic on code points, matching Lean's `String` order). -/
def insertSorted (x : String) : List String → List String
  | [] => [x]
  | y :: ys => if x ≤ y then x :: y :: ys else y :: insertSorted x ys

/-- Python `sorted` on a collection of strings. -/
def pySorted : List String → List String
  | [] => []
  | x :: xs => insertSorted x (pySorted xs)

/-- `sorted(set(expected) - set(present))` as the source computes it at
`extract_qc.py` lines 244 and 249: the distinct expected names with no
statistics file, in sorted order. -/
def sortedSetDiff (expected present : List String) : List String :=
  pySorted ((expected.filter (fun x => !present.contains x)).dedup)

/-- `extract_qc.py` lines 236-254: `get_validated_tn_pair_and_bas_lists`. -/
def get_validated_tn_pair_and_bas_lists (fs : FS)
    (tumour_bas normal_bas variant_call_tars : List String) :
    Except Err (PairDict × SampleDict × SampleDict) :=
  match get_all_t_n_pairs fs variant_call_tars with
  | .error e => .error e
  | .ok t_n_pair_tar =>
    match get_sample_names_bas_file_dict fs tumour_bas with
    | .error e => .error e
    | .ok t_name_bas =>
      match get_sample_names_bas_file_dict fs normal_bas with
      | .error e => .error e
      | .ok n_name_bas =>
        let expected_tumours := t_n_pair_tar.map (fun kv => kv.1.1)
        let expected_normals := t_n_pair_tar.map (fun kv => kv.1.2)
        let not_found :=
          sortedSetDiff expected_tumours (t_name_bas.map (fun kv => kv.1))
        if !not_found.isEmpty then
          .error (.missingSample "tumour" not_found)
        else
          let not_found2 :=
            sortedSetDiff expected_normals (n_name_bas.map (fun kv => kv.1))
          if !not_found2.isEmpty then
            .error (.missingSample "normal" not_found2)
          else .ok (t_n_pair_tar, t_name_bas, n_name_bas)

/-- `extract_qc.py` lines 298-305: `get_t_n_pair_meta`.  The metadata join is
unimplemented in the source (its body is commented out); the function returns
the stub tuple `(1, 2)`. -/
def get_t_n_pair_meta (_meta_files : List String)
    (_t_n_pairs : List (String × String)) : Int × Int :=
  (1, 2)

/-! ### `extract_qc.py`: `extract_from_sanger` -/

/-- `extract_qc.py` lines 122-147: the opening of `extract_from_sanger` up to
and including the output pre-flight.  Returns the genome size and the
absolute output path.

The pre-flight mirrors the source's `try/except/finally`:
if a file already exists at the destination the run raises the
"existing output file" `RuntimeError` (`Err.existingOutput`); otherwise a
placeholder is written and removed.  When `open(output_tar, 'w')` itself
fails, no file is created, so the unconditional `os.remove(output_tar)` in
the `finally` block raises `FileNotFoundError` (`Err.removeNotFound`), which
replaces the "output is not writable" `RuntimeError` being propagated; only
a write failure after the file was created surfaces
`Err.outputNotWritable`. -/
def extract_preflight (fs : FS) (args : Attrs) : Except Err (Int × String) :=
  match getattrE args "debug" with
  | .error e => .error e
  | .ok _debug =>
    match getattrE args "genome_size" with
    | .error e => .error e
    | .ok (.int genome_size) =>
      (match getattrE args "output_tar" with
       | .error e => .error e
       | .ok (.str s) =>
         let output_tar := get_abs_path fs s
         (match validate_tar_name output_tar with
          | .error e => .error e
          | .ok _ =>
            if fs.existsAt output_tar then
              .error (.existingOutput output_tar)
            else if !fs.canCreate output_tar then
              .error (.removeNotFound output_tar)
            else if !fs.writeOk output_tar then
              .error (.outputNotWritable output_tar)
            else .ok (genome_size, output_tar))
       | .ok _ => .error (.typeError "output_tar is not a str"))
    | .ok _ => .error .genomeSizeNotInt

/-- `extract_qc.py` lines 149-159: gathering and validating the inputs of
`extract_from_sanger`.  Returns the PairKey map, the two sample maps, the
value of the local variable `t_n_pair_meta` (`none` when the
`if args.metadata:` branch was not taken, so the local is unbound), and the
variant-count flag. -/
def extract_gather_inputs (fs : FS) (args : Attrs) :
    Except Err (PairDict × SampleDict × SampleDict × Option (Int × Int) × Bool) :=
  match getattrE args "tumour_bas" with
  | .error e => .error e
  | .ok tbv =>
    match asPathList tbv with
    | .error e => .error e
    | .ok tbPaths =>
      match get_all_bas fs tbPaths with
      | .error e => .error e
      | .ok tumour_bas =>
        match getattrE args "normal_bas" with
        | .error e => .error e
        | .ok nbv =>
          match asPathList nbv with
          | .error e => .error e
          | .ok nbPaths =>
            match get_all_bas fs nbPaths with
            | .error e => .error e
            | .ok normal_bas =>
              match getattrE args "variant_call_tar" with
              | .error e => .error e
              | .ok vtv =>
                match asPathList vtv with
                | .error e => .error e
                | .ok vtPaths =>
                  match get_all_variant_call_tar fs vtPaths with
                  | .error e => .error e
                  | .ok variant_call_tars =>
                    match get_validated_tn_pair_and_bas_lists fs tumour_bas
                        normal_bas variant_call_tars with
                    | .error e => .error e
                    | .ok (t_n_pair_tar, t_name_bas, n_name_bas) =>
                      match getattrE args "metadata" with
                      | .error e => .error e
                      | .ok mv =>
                        match
                          ((if truthy mv then
                             match asPathList mv with
                             | .error e => .error e
                             | .ok mPaths =>
                               match get_all_meta fs mPaths with
                               | .error e => .error e
                               | .ok metadata_list =>
                                 .ok (some (get_t_n_pair_meta metadata_list
                                   (t_n_pair_tar.map (fun kv => kv.1))))
                           else .ok none) :
                            Except Err (Option (Int × Int))) with
                        | .error e => .error e
                        | .ok t_n_pair_meta =>
                          match getattrE args "count_variants" with
                          | .error e => .error e
                          | .ok cvv =>
                            .ok (t_n_pair_tar, t_name_bas, n_name_bas,
                              t_n_pair_meta, truthy cvv)

/-- `extract_qc.py` lines 186-191: the per-pair loop of
`extract_from_sanger`.  Each iteration first evaluates
`print('meta:', t_n_pair_meta[t_n_pair])` (line 187): when no metadata input
was given the local `t_n_pair_meta` is unbound (`UnboundLocalError`), and
when it is bound it holds the stub tuple `(1, 2)`, whose subscript by a
PairKey raises `TypeError` — so lines 188-191 (extractor construction, row
write, genotyping collection, cleanup) are unreachable, which the `Empty`
elimination records.  Returns the emitted events together with the data rows
and genotyping files. -/
def extract_pair_loop (t_n_pair_meta : Option (Int × Int)) :
    PairDict → List Event × Except Err (List String × List String)
  | [] => ([], .ok ([], []))
  | (t_n_pair, _v_tar) :: _rest =>
    match t_n_pair_meta with
    | none =>
      ([Event.startedPair t_n_pair], .error (.unboundLocal "t_n_pair_meta"))
    | some tup =>
      match tuple_subscript_by_pair tup t_n_pair with
      | .error e => ([Event.startedPair t_n_pair], .error e)
      | .ok em => em.elim

/-- `extract_qc.py` lines 118-202: `extract_from_sanger`.

The module-level global `OUTPUT_HEADER` is threaded explicitly: the function
takes its current value and returns its value after the run, because line
183's `header += VARIANT_COUNT_HEADER` extends the global list in place
(`header` is bound to the same list object at line 181).

The result triple is (new value of the `OUTPUT_HEADER` global, event trace,
outcome); a successful outcome carries the lines of
`ppcg_sanger_metrics.txt` (header line first, each written with a final line
break in the source) and the collected genotyping file paths.  The final tar
packaging (lines 194-201) is the external collaborator and is modelled as
succeeding. -/
def extract_from_sanger (fs : FS) (output_header : List String)
    (args : Attrs) :
    List String × List Event × Except Err (List String × List String) :=
  match extract_preflight fs args with
  | .error e => (output_header, [], .error e)
  | .ok (_genome_size, _output_tar) =>
    match extract_gather_inputs fs args with
    | .error e => (output_header, [Event.beganInputParsing], .error e)
    | .ok (t_n_pair_tar, _t_name_bas, _n_name_bas, t_n_pair_meta,
        count_variants) =>
      let header :=
        output_header ++ (if count_variants then VARIANT_COUNT_HEADER else [])
      let headerLine := String.intercalate "\t" header
      match extract_pair_loop t_n_pair_meta t_n_pair_tar with
      | (evs, .error e) =>
        (header, Event.beganInputParsing :: evs, .error e)
      | (evs, .ok (rows, genotyping_files)) =>
        (header, Event.beganInputParsing :: evs,
          .ok (headerLine :: rows, genotyping_files))

/-! ### `command_line.py` -/

/-- The mutable parse state: one field per destination the parser defines
(`command_line.py` lines 24-57), with the argparse defaults. -/
structure CliState where
  tumour_bas : Option String := none
  normal_bas : Option String := none
  variant_call_tar : Option String := none
  output_tar : Option String := none
  genome_size : Int := 3137454505
  debug : Bool := false

/-- `command_line.py` lines 19-60: consuming the command-line tokens.  Each
option stores into its destination; `type=int` applies integer conversion to
the genome-size value; the version and help flags print and exit without
handing a namespace to the core; an unrecognised token is an argparse error
(exit).  Only the space-separated `--flag value` form is modelled. -/
def parseTokens : List String → CliState → Option CliState
  | [], st => some st
  | tok :: rest, st =>
    if tok == "-v" || tok == "--version" || tok == "-h" || tok == "--help"
    then none
    else if tok == "-d" || tok == "--debug" then
      parseTokens rest { st with debug := true }
    else if tok == "-tb" || tok == "--tumour_bas" then
      match rest with
      | v :: rest2 => parseTokens rest2 { st with tumour_bas := some v }
      | [] => none
    else if tok == "-nb" || tok == "--normal_bas" then
      match rest with
      | v :: rest2 => parseTokens rest2 { st with normal_bas := some v }
      | [] => none
    else if tok == "-rt" || tok == "--variant_call_tar" then
      match rest with
      | v :: rest2 => parseTokens rest2 { st with variant_call_tar := some v }
      | [] => none
    else if tok == "-o" || tok == "--output_tar" then
      match rest with
      | v :: rest2 => parseTokens rest2 { st with output_tar := some v }
      | [] => none
    else if tok == "-gs" || tok == "--genome_size" then
      match rest with
      | v :: rest2 =>
        match v.toInt? with
        | some n => parseTokens rest2 { st with genome_size := n }
        | none => none
      | [] => none
    else none

/-- The namespace object argparse hands to `extract_from_sanger`: exactly the
six destinations the parser defines (`args.func` is the sub-command binding
and is not data the core reads through `getattr`). -/
def cliNamespace (tb nb vt ot : String) (gs : Int) (dbg : Bool) : Attrs :=
  [("tumour_bas", .str tb), ("normal_bas", .str nb),
   ("variant_call_tar", .str vt), ("output_tar", .str ot),
   ("genome_size", .int gs), ("debug", .bool dbg)]

/-- `command_line.py` line 60: `parser.parse_args()`, returning the namespace
handed to the core, or `none` when argparse exits (missing required
argument, unknown token, version/help). -/
def parse_args (toks : List String) : Option Attrs :=
  match parseTokens toks {} with
  | none => none
  | some st =>
    match st.tumour_bas, st.normal_bas, st.variant_call_tar,
        st.output_tar with
    | some tb, some nb, some vt, some ot =>
      some (cliNamespace tb nb vt ot st.genome_size st.debug)
    | _, _, _, _ => none

end PpcgQc

namespace PpcgQc

/-! ### Concrete fixtures used by the claim theorems, their witnesses and
counterexamples -/

/-- A filesystem with one valid tumour/normal BAS pair, one archive holding
the member `WGS_T1_vs_N1`, a metadata file `/m.tsv`, and a writable, not yet
existing output destination. -/
def fsOnePair : FS where
  cwd := "/work"
  kind := fun p =>
    if p = "/t.bas" then .basFile true "T1"
    else if p = "/n.bas" then .basFile true "N1"
    else if p = "/v.tar.gz" then .tarFile ["WGS_T1_vs_N1"]
    else if p = "/m.tsv" then .otherFile
    else .absent
  canCreate := fun _ => true
  writeOk := fun _ => true

/-- The argument object of a run of `fsOnePair` in which no metadata inputs
are provided (`args.metadata` is an empty, hence falsy, list). -/
def argsOnePairNoMeta : Attrs :=
  [("tumour_bas", .strList ["/t.bas"]), ("normal_bas", .strList ["/n.bas"]),
   ("variant_call_tar", .strList ["/v.tar.gz"]),
   ("output_tar", .str "/out.tar.gz"),
   ("genome_size", .int 3137454505), ("debug", .bool false),
   ("metadata", .strList []), ("count_variants", .bool false)]

/-- The same run with a metadata input provided. -/
def argsOnePairWithMeta : Attrs :=
  [("tumour_bas", .strList ["/t.bas"]), ("normal_bas", .strList ["/n.bas"]),
   ("variant_call_tar", .strList ["/v.tar.gz"]),
   ("output_tar", .str "/out.tar.gz"),
   ("genome_size", .int 3137454505), ("debug", .bool false),
   ("metadata", .strList ["/m.tsv"]), ("count_variants", .bool false)]

/-- A filesystem with no input files and a writable output destination. -/
def fsEmptyRun : FS where
  cwd := "/work"
  kind := fun _ => .absent
  canCreate := fun _ => true
  writeOk := fun _ => true

/-- Arguments with empty input lists and variant counting enabled: the only
kind of run of the source that completes. -/
def argsEmptyRun : Attrs :=
  [("tumour_bas", .strList []), ("normal_bas", .strList []),
   ("variant_call_tar", .strList []), ("output_tar", .str "/out.tar.gz"),
   ("genome_size", .int 3137454505), ("debug", .bool false),
   ("metadata", .strList []), ("count_variants", .bool true)]

/-- A filesystem holding one archive whose only member is
`WGS_T1_vs_N1_extra_junk`. -/
def fsExtraJunk : FS where
  cwd := "/work"
  kind := fun p =>
    if p = "/a.tar.gz" then .tarFile ["WGS_T1_vs_N1_extra_junk"]
    else .absent
  canCreate := fun _ => true
  writeOk := fun _ => true

/-- A filesystem whose input directory `/in` contains a single entry that is
itself a subdirectory, named `sub.bam.bas`; nothing by that name exists
relative to the working directory `/work`. -/
def fsSubdirNamedLikeBas : FS where
  cwd := "/work"
  kind := fun p =>
    if p = "/in" then .dir ["sub.bam.bas"]
    else if p = "/in/sub.bam.bas" then .dir []
    else .absent
  canCreate := fun _ => true
  writeOk := fun _ => true

/-- A filesystem whose input directory `/in` contains one subdirectory and
one regular file, neither matching any statistics or archive name pattern;
a second directory `/d` holds a conventionally named archive file
`sample.tar.gz`. -/
def fsOnePairDirInput : FS where
  cwd := "/work"
  kind := fun p =>
    if p = "/in" then .dir ["subdir", "notes.txt"]
    else if p = "/in/subdir" then .dir []
    else if p = "/in/notes.txt" then .otherFile
    else if p = "/d" then .dir ["sample.tar.gz"]
    else if p = "/d/sample.tar.gz" then .otherFile
    else .absent
  canCreate := fun _ => true
  writeOk := fun _ => true

/-- A filesystem on which the output destination does not exist but cannot
be created (for example, an unwritable output directory). -/
def fsUnwritableOutput : FS where
  cwd := "/work"
  kind := fun _ => .absent
  canCreate := fun _ => false
  writeOk := fun _ => false

/-- A filesystem on which the output destination can be created but not
written. -/
def fsHalfWritableOutput : FS where
  cwd := "/work"
  kind := fun _ => .absent
  canCreate := fun _ => true
  writeOk := fun _ => false

/-- A filesystem whose archive expects tumour `T2`, while the only tumour
statistics file carries sample `T1`. -/
def fsMissingTumour : FS where
  cwd := "/work"
  kind := fun p =>
    if p = "/t.bas" then .basFile true "T1"
    else if p = "/n.bas" then .basFile true "N1"
    else if p = "/v.tar.gz" then .tarFile ["WGS_T2_vs_N1"]
    else .absent
  canCreate := fun _ => true
  writeOk := fun _ => true

/-! ### Shared helper lemmas -/

/-- `findSome?` skips a block of elements on which `f` returns `none`. -/
theorem findSome?_append_none {α β : Type} (f : α → Option β)
    (pre rest : List α) (h : ∀ x ∈ pre, f x = none) :
    (pre ++ rest).findSome? f = rest.findSome? f := by
  induction pre with
  | nil => rfl
  | cons a l ih =>
    have ha : f a = none := h a (List.mem_cons_self a l)
    have ih2 := ih (fun x hx => h x (List.mem_cons_of_mem a hx))
    simpa [List.findSome?_cons, ha] using ih2

/-- The first matching member determines the result of the member scan. -/
theorem findSome?_first_match {α β : Type} (f : α → Option β)
    (pre post : List α) (m : α) (b : β) (hpre : ∀ x ∈ pre, f x = none)
    (hm : f m = some b) :
    (pre ++ m :: post).findSome? f = some b := by
  rw [findSome?_append_none f pre (m :: post) hpre]
  simp [List.findSome?_cons, hm]

/-- A name filter that rejects every entry makes the directory branch of
`get_all_bas` return the empty list. -/
theorem get_all_bas_dir_no_match (fs : FS) (entries : List String)
    (h : ∀ e ∈ entries, matchBasName e = false) :
    get_all_bas_dir fs entries = .ok [] := by
  induction entries with
  | nil => rfl
  | cons a l ih =>
    have ha : matchBasName a = false := h a (List.mem_cons_self a l)
    have ih2 := ih (fun x hx => h x (List.mem_cons_of_mem a hx))
    simp [get_all_bas_dir, ha, ih2]

/-- A name filter that rejects every entry makes the directory branch of
`get_all_variant_call_tar` return the empty list. -/
theorem get_all_variant_call_tar_dir_no_match (fs : FS)
    (entries : List String) (h : ∀ e ∈ entries, matchTarName e = false) :
    get_all_variant_call_tar_dir fs entries = .ok [] := by
  induction entries with
  | nil => rfl
  | cons a l ih =>
    have ha : matchTarName a = false := h a (List.mem_cons_self a l)
    have ih2 := ih (fun x hx => h x (List.mem_cons_of_mem a hx))
    simp [get_all_variant_call_tar_dir, ha, ih2]

/-- The archive name filter `\.tar.gz$` under `re.match` never accepts a
conventional `<stem>.tar.gz` name with a non-empty stem: anchored at the
start, the whole name would have to be seven characters long. -/
theorem matchTarName_stem_false (stem : String) (h : stem ≠ "") :
    matchTarName (stem ++ ".tar.gz") = false := by
  have hdata : (stem ++ ".tar.gz").data = stem.data ++ ".tar.gz".data :=
    String.data_append stem ".tar.gz"
  have hne : stem.data ≠ [] := by
    intro hnil
    exact h (by cases stem with | mk l => simpa using congrArg String.mk hnil)
  have hlast : (stem.data ++ ".tar.gz".data).getLast? = some 'z' := by
    rw [List.getLast?_append]
    rfl
  have hstrip : stripFinalNewline ((stem ++ ".tar.gz").data)
      = stem.data ++ ".tar.gz".data := by
    rw [hdata]
    unfold stripFinalNewline
    rw [hlast]
    simp
  have hlen : (stem.data ++ ".tar.gz".data).length ≠ 7 := by
    have hpos : 0 < stem.data.length := List.length_pos.mpr hne
    have h7 : (".tar.gz".data).length = 7 := rfl
    rw [List.length_append, h7]
    omega
  unfold matchTarName
  rw [hstrip]
  split
  · next heq =>
      exfalso
      apply hlen
      rw [heq]
      rfl
  · rfl

/-- The loop of `extract_from_sanger` can only fail with the unbound-local
or the tuple-subscript error. -/
theorem extract_pair_loop_error_cases (m : Option (Int × Int)) (d : PairDict)
    (evs : List Event) (e : Err)
    (h : extract_pair_loop m d = (evs, .error e)) :
    e = .unboundLocal "t_n_pair_meta" ∨
      e = .typeError "tuple indices must be integers or slices, not tuple" := by
  match d with
  | [] => simp [extract_pair_loop] at h
  | (k, v) :: rest =>
    match m with
    | none =>
      simp [extract_pair_loop] at h
      exact Or.inl h.2.symm
    | some tup =>
      simp [extract_pair_loop, tuple_subscript_by_pair] at h
      exact Or.inr h.2.symm

/-- The loop of `extract_from_sanger` succeeds only on an empty PairKey map,
emitting no events and producing no rows. -/
theorem extract_pair_loop_ok_cases (m : Option (Int × Int)) (d : PairDict)
    (evs : List Event) (x : List String × List String)
    (h : extract_pair_loop m d = (evs, .ok x)) :
    d = [] ∧ evs = [] ∧ x = ([], []) := by
  match d with
  | [] =>
    simp [extract_pair_loop] at h
    exact ⟨rfl, h.1, h.2.symm⟩
  | (k, v) :: rest =>
    match m with
    | none => simp [extract_pair_loop] at h
    | some tup => simp [extract_pair_loop, tuple_subscript_by_pair] at h

/-! ### Claim C5 -/

/-- Claim C5: for every archive containing a member matching the pairing
convention `WGS_<T>_vs_<N>`, the Archive Identity Parser returns the PairKey
`(T, N)` captured from the first such member in the archive's internal member
order; for every archive containing no such member, it fails with
`InvalidArchiveError`. -/
theorem c5_archive_identity_pairing (fs : FS) (p : String)
    (members : List String) (harc : fs.kindAt p = .tarFile members) :
    (∀ (pre post : List String) (m t n : String),
      members = pre ++ m :: post → (∀ x ∈ pre, matchPairName x = none) →
      matchPairName m = some (t, n) →
      get_all_t_n_pairs fs [p] = .ok [((t, n), p)])
    ∧ ((∀ x ∈ members, matchPairName x = none) →
      get_all_t_n_pairs fs [p] = .error (.invalidArchive p)) := by
  have hopen : openTarMembers fs p = .ok members := by
    unfold openTarMembers
    rw [harc]
  constructor
  · intro pre post m t n hsplit hpre hm
    have hfind : members.findSome? matchPairName = some (t, n) := by
      rw [hsplit]
      exact findSome?_first_match matchPairName pre post m (t, n) hpre hm
    unfold get_all_t_n_pairs get_all_t_n_pairs_go
    rw [hopen]
    simp [hfind, get_all_t_n_pairs_go, dictInsert]
  · intro hall
    have hfind : members.findSome? matchPairName = none :=
      List.findSome?_eq_none_iff.mpr hall
    unfold get_all_t_n_pairs get_all_t_n_pairs_go
    rw [hopen]
    simp [hfind]

/-- Witness for C5: the archive `/v.tar.gz` of `fsOnePair` holds the single
member `WGS_T1_vs_N1` and yields the PairKey `("T1", "N1")`. -/
theorem c5_archive_identity_pairing_witness :
    get_all_t_n_pairs fsOnePair ["/v.tar.gz"] =
      .ok [(("T1", "N1"), "/v.tar.gz")] :=
  (c5_archive_identity_pairing fsOnePair "/v.tar.gz" ["WGS_T1_vs_N1"] rfl).1
    [] [] "WGS_T1_vs_N1" "T1" "N1" rfl (by intro x hx; cases hx) rfl

/-! ### Claim C3 -/

/-- Counterexample to claim C3: the member name `WGS_T1_vs_N1_extra_junk`
does match `^WGS_([\w\-]+)_vs_([\w\-]+)$` (underscore is a word character,
so group 2 captures `N1_extra_junk`), hence an archive whose only member
bears that name is accepted with PairKey `("T1", "N1_extra_junk")` and no
`InvalidArchiveError` is raised. -/
theorem c3_counterexample :
    matchPairName "WGS_T1_vs_N1_extra_junk" = some ("T1", "N1_extra_junk") ∧
    get_all_t_n_pairs fsExtraJunk ["/a.tar.gz"] =
      .ok [(("T1", "N1_extra_junk"), "/a.tar.gz")] ∧
    get_all_t_n_pairs fsExtraJunk ["/a.tar.gz"] ≠
      .error (.invalidArchive "/a.tar.gz") := by
  refine ⟨rfl, rfl, ?_⟩
  intro h
  exact Except.noConfusion h

/-- Claim C3 as amended: for every archive whose members include the name
`WGS_T1_vs_N1_extra_junk` and no other name matching the pairing pattern,
the Archive Identity Parser accepts the archive with PairKey
`("T1", "N1_extra_junk")` (the name does match the pattern, because
underscores are word characters), and no `InvalidArchiveError` is raised. -/
theorem c3_extra_junk_is_accepted (fs : FS) (p : String)
    (members : List String) (harc : fs.kindAt p = .tarFile members)
    (hmem : "WGS_T1_vs_N1_extra_junk" ∈ members)
    (hother : ∀ m ∈ members, m ≠ "WGS_T1_vs_N1_extra_junk" →
      matchPairName m = none) :
    get_all_t_n_pairs fs [p] = .ok [(("T1", "N1_extra_junk"), p)] := by
  have hopen : openTarMembers fs p = .ok members := by
    unfold openTarMembers
    rw [harc]
  have hfind : members.findSome? matchPairName =
      some ("T1", "N1_extra_junk") := by
    clear hopen harc
    induction members with
    | nil => cases hmem
    | cons a l ih =>
      by_cases ha : a = "WGS_T1_vs_N1_extra_junk"
      · subst ha
        rfl
      · have hnone : matchPairName a =
            none := hother a (List.mem_cons_self a l) ha
        rw [List.findSome?_cons, hnone]
        have hmem2 : "WGS_T1_vs_N1_extra_junk" ∈ l := by
          rcases List.mem_cons.mp hmem with h1 | h2
          · exact absurd h1.symm ha
          · exact h2
        exact ih hmem2
          (fun m hm hne => hother m (List.mem_cons_of_mem a hm) hne)
  unfold get_all_t_n_pairs get_all_t_n_pairs_go
  rw [hopen]
  simp [hfind, get_all_t_n_pairs_go, dictInsert]

/-- Witness for C3 as amended, at the concrete archive of `fsExtraJunk`. -/
theorem c3_extra_junk_is_accepted_witness :
    get_all_t_n_pairs fsExtraJunk ["/a.tar.gz"] =
      .ok [(("T1", "N1_extra_junk"), "/a.tar.gz")] :=
  c3_extra_junk_is_accepted fsExtraJunk "/a.tar.gz"
    ["WGS_T1_vs_N1_extra_junk"] rfl (List.mem_singleton.mpr rfl)
    (fun _m hm hne => absurd (List.mem_singleton.mp hm) hne)

/-! ### Claim C8 -/

/-- Claim C8 as amended: an input directory all of whose entry names fail the
statistics naming pattern yields an empty file list and no error.  (The
original claim is refuted by `c8_counterexample`: the is-directory test is
applied to the bare entry name, which resolves against the process working
directory, so a subdirectory whose name matches the pattern is treated as a
candidate statistics file rather than silently skipped.) -/
theorem c8_locator_empty_on_no_match (fs : FS) (p : String)
    (entries : List String) (hdir : fs.kindAt p = .dir entries)
    (hnames : ∀ e ∈ entries, matchBasName e = false) :
    get_all_bas fs [p] = .ok [] := by
  have hexists : fs.existsAt p = true := by
    unfold FS.existsAt
    rw [hdir]
  have hisdir : fs.isDirAt p = true := by
    unfold FS.isDirAt
    rw [hdir]
  have hentries : fs.entriesAt p = entries := by
    unfold FS.entriesAt
    rw [hdir]
  unfold get_all_bas check_file_exists
  rw [hexists, hisdir, hentries]
  simp [get_all_bas_dir_no_match fs entries hnames, get_all_bas]

/-- Counterexample to claim C8: a directory containing only a subdirectory
(named `sub.bam.bas`) makes the Locator fail instead of returning an empty
list, because `os.path.isdir` is called on the bare entry name (resolved
against the working directory, where nothing exists), the name matches the
statistics pattern, and the subsequent validation of the bare name fails. -/
theorem c8_counterexample :
    get_all_bas fsSubdirNamedLikeBas ["/in"] =
      .error (.notFound "sub.bam.bas") ∧
    get_all_bas fsSubdirNamedLikeBas ["/in"] ≠ .ok [] := by
  refine ⟨rfl, ?_⟩
  intro h
  exact Except.noConfusion h

/-- Witness for C8 as amended: a directory holding one subdirectory and one
regular file, neither matching the pattern, yields `.ok []`. -/
theorem c8_locator_empty_on_no_match_witness :
    get_all_bas fsOnePairDirInput ["/in"] = .ok [] :=
  c8_locator_empty_on_no_match fsOnePairDirInput "/in"
    ["subdir", "notes.txt"]
    rfl (by intro e he; fin_cases he <;> rfl)

/-! ### Claim C9 -/

/-- Claim C9: the name filter of the variant-call archive Locator
(`re.match(r'\.tar.gz$', name)`) is anchored at the start of the bare
filename, so a conventional `<stem>.tar.gz` name with a non-empty stem never
matches; a directory containing only such files contributes no archives and
raises no error. -/
theorem c9_conventional_tar_names_skipped (fs : FS) (p : String)
    (entries : List String) (hdir : fs.kindAt p = .dir entries)
    (hnames : ∀ e ∈ entries, ∃ stem : String,
      stem ≠ "" ∧ e = stem ++ ".tar.gz") :
    (∀ stem : String, stem ≠ "" →
      matchTarName (stem ++ ".tar.gz") = false) ∧
    get_all_variant_call_tar fs [p] = .ok [] := by
  refine ⟨fun stem h => matchTarName_stem_false stem h, ?_⟩
  have hexists : fs.existsAt p = true := by
    unfold FS.existsAt
    rw [hdir]
  have hisdir : fs.isDirAt p = true := by
    unfold FS.isDirAt
    rw [hdir]
  have hentries : fs.entriesAt p = entries := by
    unfold FS.entriesAt
    rw [hdir]
  have hfalse : ∀ e ∈ entries, matchTarName e = false := by
    intro e he
    obtain ⟨stem, hne, heq⟩ := hnames e he
    rw [heq]
    exact matchTarName_stem_false stem hne
  unfold get_all_variant_call_tar check_file_exists
  rw [hexists, hisdir, hentries]
  simp [get_all_variant_call_tar_dir_no_match fs entries hfalse,
    get_all_variant_call_tar]

/-- Witness for C9: the directory `/d` containing only `sample.tar.gz`
contributes no archives and raises no error. -/
theorem c9_conventional_tar_names_skipped_witness :
    (∀ stem : String, stem ≠ "" →
      matchTarName (stem ++ ".tar.gz") = false) ∧
    get_all_variant_call_tar fsOnePairDirInput ["/d"] = .ok [] :=
  c9_conventional_tar_names_skipped fsOnePairDirInput "/d"
    ["sample.tar.gz"] rfl
    (fun e he => by
      rw [List.mem_singleton.mp he]
      exact ⟨"sample", by decide, rfl⟩)

/-! ### Claim C4 -/

/-- Claim C4: with expected identifiers `E` taken from the PairKey map and
present identifiers `P` from a role's statistics-file map, the Cohort
Reconciler fails with `MissingSampleError` iff `E − P` is non-empty for some
role; the missing-name list carried by the error is `sorted(set(E) -
set(P))` for the triggering role (tumour checked first); on success the
three maps are passed through unchanged; and a run that fails with
`MissingSampleError` starts processing no pair (no `startedPair` event is
ever emitted by such a run). -/
theorem c4_missing_sample_reconciliation (fs : FS)
    (tB nB tars : List String) (pairTar : PairDict) (tMap nMap : SampleDict)
    (h1 : get_all_t_n_pairs fs tars = .ok pairTar)
    (h2 : get_sample_names_bas_file_dict fs tB = .ok tMap)
    (h3 : get_sample_names_bas_file_dict fs nB = .ok nMap) :
    ((∃ e, get_validated_tn_pair_and_bas_lists fs tB nB tars = .error e) ↔
      (sortedSetDiff (pairTar.map fun kv => kv.1.1)
          (tMap.map fun kv => kv.1) ≠ [] ∨
        sortedSetDiff (pairTar.map fun kv => kv.1.2)
          (nMap.map fun kv => kv.1) ≠ []))
    ∧ (sortedSetDiff (pairTar.map fun kv => kv.1.1)
          (tMap.map fun kv => kv.1) ≠ [] →
        get_validated_tn_pair_and_bas_lists fs tB nB tars =
          .error (.missingSample "tumour"
            (sortedSetDiff (pairTar.map fun kv => kv.1.1)
              (tMap.map fun kv => kv.1))))
    ∧ (sortedSetDiff (pairTar.map fun kv => kv.1.1)
          (tMap.map fun kv => kv.1) = [] →
        sortedSetDiff (pairTar.map fun kv => kv.1.2)
          (nMap.map fun kv => kv.1) ≠ [] →
        get_validated_tn_pair_and_bas_lists fs tB nB tars =
          .error (.missingSample "normal"
            (sortedSetDiff (pairTar.map fun kv => kv.1.2)
              (nMap.map fun kv => kv.1))))
    ∧ (sortedSetDiff (pairTar.map fun kv => kv.1.1)
          (tMap.map fun kv => kv.1) = [] →
        sortedSetDiff (pairTar.map fun kv => kv.1.2)
          (nMap.map fun kv => kv.1) = [] →
        get_validated_tn_pair_and_bas_lists fs tB nB tars =
          .ok (pairTar, tMap, nMap))
    ∧ (∀ (fs2 : FS) (hdr : List String) (args : Attrs)
        (hdr2 : List String) (tr : List Event) (role : String)
        (names : List String),
        extract_from_sanger fs2 hdr args =
          (hdr2, tr, .error (.missingSample role names)) →
        ∀ k, Event.startedPair k ∉ tr) := by
  have hred : get_validated_tn_pair_and_bas_lists fs tB nB tars =
      (if !(sortedSetDiff (pairTar.map fun kv => kv.1.1)
            (tMap.map fun kv => kv.1)).isEmpty then
         .error (.missingSample "tumour"
           (sortedSetDiff (pairTar.map fun kv => kv.1.1)
             (tMap.map fun kv => kv.1)))
       else if !(sortedSetDiff (pairTar.map fun kv => kv.1.2)
            (nMap.map fun kv => kv.1)).isEmpty then
         .error (.missingSample "normal"
           (sortedSetDiff (pairTar.map fun kv => kv.1.2)
             (nMap.map fun kv => kv.1)))
       else .ok (pairTar, tMap, nMap)) := by
    unfold get_validated_tn_pair_and_bas_lists
    simp only [h1, h2, h3]
  have htum : sortedSetDiff (pairTar.map fun kv => kv.1.1)
      (tMap.map fun kv => kv.1) ≠ [] →
      get_validated_tn_pair_and_bas_lists fs tB nB tars =
        .error (.missingSample "tumour"
          (sortedSetDiff (pairTar.map fun kv => kv.1.1)
            (tMap.map fun kv => kv.1))) := by
    intro ht
    have hb : (sortedSetDiff (pairTar.map fun kv => kv.1.1)
        (tMap.map fun kv => kv.1)).isEmpty = false :=
      List.isEmpty_eq_false.mpr ht
    rw [hred, hb]
    rfl
  have hnorm : sortedSetDiff (pairTar.map fun kv => kv.1.1)
      (tMap.map fun kv => kv.1) = [] →
      sortedSetDiff (pairTar.map fun kv => kv.1.2)
        (nMap.map fun kv => kv.1) ≠ [] →
      get_validated_tn_pair_and_bas_lists fs tB nB tars =
        .error (.missingSample "normal"
          (sortedSetDiff (pairTar.map fun kv => kv.1.2)
            (nMap.map fun kv => kv.1))) := by
    intro ht hn
    have hb : (sortedSetDiff (pairTar.map fun kv => kv.1.2)
        (nMap.map fun kv => kv.1)).isEmpty = false :=
      List.isEmpty_eq_false.mpr hn
    rw [hred, ht, hb]
    rfl
  have hok : sortedSetDiff (pairTar.map fun kv => kv.1.1)
      (tMap.map fun kv => kv.1) = [] →
      sortedSetDiff (pairTar.map fun kv => kv.1.2)
        (nMap.map fun kv => kv.1) = [] →
      get_validated_tn_pair_and_bas_lists fs tB nB tars =
        .ok (pairTar, tMap, nMap) := by
    intro ht hn
    rw [hred, ht, hn]
    rfl
  refine ⟨?_, htum, hnorm, hok, ?_⟩
  · constructor
    · rintro ⟨e, he⟩
      by_contra hcon
      push_neg at hcon
      rw [hok hcon.1 hcon.2] at he
      exact Except.noConfusion he
    · rintro (ht | hn)
      · exact ⟨_, htum ht⟩
      · by_cases ht : sortedSetDiff (pairTar.map fun kv => kv.1.1)
            (tMap.map fun kv => kv.1) = []
        · exact ⟨_, hnorm ht hn⟩
        · exact ⟨_, htum ht⟩
  · intro fs2 hdr args hdr2 tr role names hrun k hk
    unfold extract_from_sanger at hrun
    cases hpre : extract_preflight fs2 args with
    | error e =>
      simp only [hpre] at hrun
      simp only [Prod.mk.injEq] at hrun
      rw [← hrun.2.1] at hk
      cases hk
    | ok pv =>
      obtain ⟨gsz, outp⟩ := pv
      simp only [hpre] at hrun
      cases hg : extract_gather_inputs fs2 args with
      | error e =>
        simp only [hg] at hrun
        simp only [Prod.mk.injEq] at hrun
        rw [← hrun.2.1] at hk
        simp at hk
      | ok gv =>
        obtain ⟨pairTar2, tMap2, nMap2, meta2, cv2⟩ := gv
        simp only [hg] at hrun
        cases hloop : extract_pair_loop meta2 pairTar2 with
        | mk evs res =>
          cases res with
          | error e =>
            simp only [hloop] at hrun
            simp only [Prod.mk.injEq] at hrun
            have he : e = Err.missingSample role names := by
              have := hrun.2.2
              exact (Except.error.injEq _ _).mp this
            rcases extract_pair_loop_error_cases meta2 pairTar2 evs e hloop
              with h | h
            · rw [he] at h
              exact Err.noConfusion h
            · rw [he] at h
              exact Err.noConfusion h
          | ok x =>
            obtain ⟨rows, gfiles⟩ := x
            simp only [hloop] at hrun
            simp only [Prod.mk.injEq] at hrun
            exact Except.noConfusion hrun.2.2

/-- Witness for C4: the archive of `fsMissingTumour` expects tumour `T2`,
the only tumour statistics file carries `T1`, so validation fails naming
`T2`. -/
theorem c4_missing_sample_reconciliation_witness :
    get_validated_tn_pair_and_bas_lists fsMissingTumour ["/t.bas"]
      ["/n.bas"] ["/v.tar.gz"] = .error (.missingSample "tumour" ["T2"]) :=
  (c4_missing_sample_reconciliation fsMissingTumour ["/t.bas"] ["/n.bas"]
    ["/v.tar.gz"] [(("T2", "N1"), "/v.tar.gz")] [("T1", "/t.bas")]
    [("N1", "/n.bas")] rfl rfl rfl).2.1 (by decide)

/-! ### Claim C6 -/

/-- Claim C6 as amended: with an existing file at the output destination the
run fails with `OutputExistsError` before any input statistics file or
archive is parsed (empty event trace, header global untouched); with a
non-existing destination the placeholder write-then-delete pre-flight is
performed, and a test write that fails after the placeholder was created
raises `OutputUnwritableError` — but when the placeholder cannot be created
at all, the unconditional `os.remove` in the `finally` block raises a
file-not-found error that masks the unwritable error — in every case before
any input parsing. -/
theorem c6_output_preflight (fs : FS) (args : Attrs) (d : AttrVal) (g : Int)
    (o : String) (hd : args.lookup "debug" = some d)
    (hg : args.lookup "genome_size" = some (.int g))
    (ho : args.lookup "output_tar" = some (.str o))
    (hvt : validate_tar_name (get_abs_path fs o) = .ok ()) :
    (fs.existsAt (get_abs_path fs o) = true →
      ∀ hdr, extract_from_sanger fs hdr args =
        (hdr, [], .error (.existingOutput (get_abs_path fs o))))
    ∧ (fs.existsAt (get_abs_path fs o) = false →
      fs.canCreate (get_abs_path fs o) = true →
      fs.writeOk (get_abs_path fs o) = false →
      ∀ hdr, extract_from_sanger fs hdr args =
        (hdr, [], .error (.outputNotWritable (get_abs_path fs o))))
    ∧ (fs.existsAt (get_abs_path fs o) = false →
      fs.canCreate (get_abs_path fs o) = false →
      ∀ hdr, extract_from_sanger fs hdr args =
        (hdr, [], .error (.removeNotFound (get_abs_path fs o)))) := by
  have hgetd : getattrE args "debug" = .ok d := by
    unfold getattrE
    rw [hd]
  have hgetg : getattrE args "genome_size" = .ok (.int g) := by
    unfold getattrE
    rw [hg]
  have hgeto : getattrE args "output_tar" = .ok (.str o) := by
    unfold getattrE
    rw [ho]
  refine ⟨?_, ?_, ?_⟩
  · intro hex hdr
    have hpre : extract_preflight fs args =
        .error (.existingOutput (get_abs_path fs o)) := by
      unfold extract_preflight
      rw [hgetd]
      simp [hgetg, hgeto, hvt, hex]
    unfold extract_from_sanger
    rw [hpre]
  · intro hex hcc hwo hdr
    have hpre : extract_preflight fs args =
        .error (.outputNotWritable (get_abs_path fs o)) := by
      unfold extract_preflight
      rw [hgetd]
      simp [hgetg, hgeto, hvt, hex, hcc, hwo]
    unfold extract_from_sanger
    rw [hpre]
  · intro hex hcc hdr
    have hpre : extract_preflight fs args =
        .error (.removeNotFound (get_abs_path fs o)) := by
      unfold extract_preflight
      rw [hgetd]
      simp [hgetg, hgeto, hvt, hex, hcc]
    unfold extract_from_sanger
    rw [hpre]

/-- Witness for C6 as amended: on `fsOnePair` with an existing file at the
output destination the run fails with the existing-output error, empty
trace. -/
theorem c6_output_preflight_witness :
    extract_from_sanger fsOnePair OUTPUT_HEADER
      [("debug", .bool false), ("genome_size", .int 3137454505),
       ("output_tar", .str "/v.tar.gz"),
       ("tumour_bas", .strList ["/t.bas"])] =
      (OUTPUT_HEADER, [], .error (.existingOutput "/v.tar.gz")) := by
  have h := (c6_output_preflight fsOnePair
    [("debug", .bool false), ("genome_size", .int 3137454505),
     ("output_tar", .str "/v.tar.gz"), ("tumour_bas", .strList ["/t.bas"])]
    (.bool false) 3137454505 "/v.tar.gz" rfl rfl rfl rfl).1
  exact h rfl OUTPUT_HEADER

/-- Counterexample to claim C6: on a filesystem where the output placeholder
cannot even be created, the failing test write does not raise
`OutputUnwritableError` — the unconditional `os.remove(output_tar)` in the
`finally` block raises a file-not-found error instead, masking it. -/
theorem c6_counterexample :
    (extract_from_sanger fsUnwritableOutput OUTPUT_HEADER argsEmptyRun).2.2 =
      .error (.removeNotFound "/out.tar.gz") ∧
    (extract_from_sanger fsUnwritableOutput OUTPUT_HEADER argsEmptyRun).2.2 ≠
      .error (.outputNotWritable "/out.tar.gz") := by
  refine ⟨rfl, ?_⟩
  intro h
  rw [show (extract_from_sanger fsUnwritableOutput OUTPUT_HEADER
      argsEmptyRun).2.2 = .error (.removeNotFound "/out.tar.gz") from rfl]
    at h
  have := (Except.error.injEq _ _).mp h
  exact Err.noConfusion this

/-! ### Claim C2 -/

/-- A namespace without a `metadata` attribute can never make it through the
input-gathering phase: `args.metadata` at line 155 raises `AttributeError`
(when no earlier step failed first). -/
theorem extract_gather_inputs_no_metadata_attr (fs : FS) (args : Attrs)
    (h : args.lookup "metadata" = none) :
    ∀ x, extract_gather_inputs fs args ≠ .ok x := by
  intro x hx
  have hm : getattrE args "metadata" =
      .error (.attributeError "metadata") := by
    unfold getattrE
    rw [h]
  unfold extract_gather_inputs at hx
  rw [hm] at hx
  iterate 12 (all_goals try split at hx)
  all_goals simp_all

/-- Claim C2 (code bug): the command-line parser defines only the
tumour-statistics, normal-statistics, variant-call-archive, output,
genome-size and debug destinations; every namespace it hands to the core
lacks the `metadata` and `count_variants` attributes the core reads, so
every run started through the CLI fails (at latest with `AttributeError` on
`args.metadata`). -/
theorem c2_cli_missing_core_fields (toks : List String) (ns : Attrs)
    (hp : parse_args toks = some ns) :
    (ns.lookup "metadata" = none ∧ ns.lookup "count_variants" = none) ∧
    ∀ (fs : FS) (hdr : List String), ∃ e,
      (extract_from_sanger fs hdr ns).2.2 = .error e := by
  unfold parse_args at hp
  cases hpt : parseTokens toks {} with
  | none =>
    rw [hpt] at hp
    exact Option.noConfusion hp
  | some st =>
    rw [hpt] at hp
    cases htb : st.tumour_bas with
    | none => simp [htb] at hp
    | some tb =>
      cases hnb : st.normal_bas with
      | none => simp [htb, hnb] at hp
      | some nb =>
        cases hvt : st.variant_call_tar with
        | none => simp [htb, hnb, hvt] at hp
        | some vt =>
          cases hot : st.output_tar with
          | none => simp [htb, hnb, hvt, hot] at hp
          | some ot =>
            simp only [htb, hnb, hvt, hot, Option.some.injEq] at hp
            subst hp
            refine ⟨⟨rfl, rfl⟩, ?_⟩
            intro fs hdr
            cases hpre : extract_preflight fs
                (cliNamespace tb nb vt ot st.genome_size st.debug) with
            | error e =>
              refine ⟨e, ?_⟩
              unfold extract_from_sanger
              rw [hpre]
            | ok pv =>
              obtain ⟨gsz, outp⟩ := pv
              cases hgi : extract_gather_inputs fs
                  (cliNamespace tb nb vt ot st.genome_size st.debug) with
              | error e =>
                refine ⟨e, ?_⟩
                unfold extract_from_sanger
                simp only [hpre, hgi]
              | ok gv =>
                exact absurd hgi
                  (extract_gather_inputs_no_metadata_attr fs
                    (cliNamespace tb nb vt ot st.genome_size st.debug)
                    rfl gv)

/-- Witness for C2: a complete, successfully parsed invocation whose
namespace lacks the metadata and variant-count fields, and whose run on a
well-formed filesystem fails. -/
theorem c2_cli_missing_core_fields_witness :
    parse_args ["-tb", "/t.bas", "-nb", "/n.bas", "-rt", "/v.tar.gz",
        "-o", "/out.tar.gz"] =
      some (cliNamespace "/t.bas" "/n.bas" "/v.tar.gz" "/out.tar.gz"
        3137454505 false) ∧
    (cliNamespace "/t.bas" "/n.bas" "/v.tar.gz" "/out.tar.gz"
        3137454505 false).lookup "metadata" = none ∧
    ∃ e, (extract_from_sanger fsOnePair OUTPUT_HEADER
      (cliNamespace "/t.bas" "/n.bas" "/v.tar.gz" "/out.tar.gz"
        3137454505 false)).2.2 = .error e := by
  have h := c2_cli_missing_core_fields
    ["-tb", "/t.bas", "-nb", "/n.bas", "-rt", "/v.tar.gz",
     "-o", "/out.tar.gz"]
    (cliNamespace "/t.bas" "/n.bas" "/v.tar.gz" "/out.tar.gz"
      3137454505 false) rfl
  exact ⟨rfl, h.1.1, h.2 fsOnePair OUTPUT_HEADER⟩

/-! ### Claim C1 -/

/-- Claim C1 (code bug): in a run in which no metadata inputs are provided
(`args.metadata` is an empty list), the local `t_n_pair_meta` is never
assigned, so the first pair's `print('meta:', t_n_pair_meta[t_n_pair])`
raises `UnboundLocalError` — absent metadata is not tolerated and no pair is
processed to completion, contradicting the claim. -/
theorem c1_no_metadata_is_fatal :
    extract_from_sanger fsOnePair OUTPUT_HEADER argsOnePairNoMeta =
      (OUTPUT_HEADER,
       [Event.beganInputParsing, Event.startedPair ("T1", "N1")],
       .error (.unboundLocal "t_n_pair_meta")) := rfl

/-! ### Claim C7 -/

/-- Claim C7 (code bug): the round-trip report shape is only realized for
zero pairs.  A run over one valid pair with a metadata input fails with
`TypeError` (the metadata stub `(1, 2)` subscripted by a PairKey) before the
first data row is written, and every successful run writes exactly one line
(the header) having started no pair. -/
theorem c7_report_shape_requires_pairs :
    ((extract_from_sanger fsOnePair OUTPUT_HEADER argsOnePairWithMeta).2.2 =
      .error
        (.typeError "tuple indices must be integers or slices, not tuple"))
    ∧ ∀ (fs : FS) (hdr : List String) (args : Attrs) (hdr2 : List String)
        (tr : List Event) (rows gfiles : List String),
        extract_from_sanger fs hdr args = (hdr2, tr, .ok (rows, gfiles)) →
        rows.length = 1 ∧ ∀ k, Event.startedPair k ∉ tr := by
  refine ⟨rfl, ?_⟩
  intro fs hdr args hdr2 tr rows gfiles hrun
  unfold extract_from_sanger at hrun
  cases hpre : extract_preflight fs args with
  | error e =>
    simp only [hpre, Prod.mk.injEq] at hrun
    exact absurd hrun.2.2 (fun h => Except.noConfusion h)
  | ok pv =>
    obtain ⟨gsz, outp⟩ := pv
    simp only [hpre] at hrun
    cases hg : extract_gather_inputs fs args with
    | error e =>
      simp only [hg, Prod.mk.injEq] at hrun
      exact absurd hrun.2.2 (fun h => Except.noConfusion h)
    | ok gv =>
      obtain ⟨pt2, tm2, nm2, m2, cv2⟩ := gv
      simp only [hg] at hrun
      cases hloop : extract_pair_loop m2 pt2 with
      | mk evs res =>
        cases res with
        | error e =>
          simp only [hloop, Prod.mk.injEq] at hrun
          exact absurd hrun.2.2 (fun h => Except.noConfusion h)
        | ok x =>
          obtain ⟨r2, g2⟩ := x
          obtain ⟨hd2, hevs, hx⟩ :=
            extract_pair_loop_ok_cases m2 pt2 evs (r2, g2) hloop
          simp only [hloop, Prod.mk.injEq] at hrun
          obtain ⟨hrows, hgf⟩ :=
            Prod.mk.injEq .. |>.mp ((Except.ok.injEq _ _).mp hrun.2.2)
          constructor
          · rw [← hrows]
            have hr2 : r2 = [] := congrArg Prod.fst hx
            rw [hr2]
            rfl
          · intro k hk
            rw [← hrun.2.1] at hk
            rw [hevs] at hk
            simp at hk

/-- Witness for C7: the only completing runs process zero pairs — the empty
run writes exactly the single header line and starts no pair. -/
theorem c7_report_shape_requires_pairs_witness :
    extract_from_sanger fsEmptyRun OUTPUT_HEADER argsEmptyRun =
      (OUTPUT_HEADER ++ VARIANT_COUNT_HEADER, [Event.beganInputParsing],
        .ok ([String.intercalate "\t"
          (OUTPUT_HEADER ++ VARIANT_COUNT_HEADER)], [])) ∧
    ([String.intercalate "\t"
      (OUTPUT_HEADER ++ VARIANT_COUNT_HEADER)].length = 1 ∧
      ∀ k, Event.startedPair k ∉ [Event.beganInputParsing]) :=
  ⟨rfl, c7_report_shape_requires_pairs.2 fsEmptyRun OUTPUT_HEADER
    argsEmptyRun (OUTPUT_HEADER ++ VARIANT_COUNT_HEADER)
    [Event.beganInputParsing]
    [String.intercalate "\t" (OUTPUT_HEADER ++ VARIANT_COUNT_HEADER)] []
    rfl⟩

/-! ### Claim C10 -/

/-- Counterexample to claim C10: the fixed base schema `OUTPUT_HEADER` has
54 column names, not 53. -/
theorem c10_counterexample :
    OUTPUT_HEADER.length = 54 ∧ ¬ OUTPUT_HEADER.length = 53 :=
  ⟨rfl, by decide⟩

/-- Claim C10 as amended: with variant counting enabled, line 183's
`header += VARIANT_COUNT_HEADER` extends the module-level `OUTPUT_HEADER`
list in place, so after one invocation the global no longer equals the fixed
54-name base schema, and a second invocation in the same process writes a
header containing the four variant-count columns twice. -/
theorem c10_header_global_mutation :
    (extract_from_sanger fsEmptyRun OUTPUT_HEADER argsEmptyRun).1 =
      OUTPUT_HEADER ++ VARIANT_COUNT_HEADER
    ∧ (extract_from_sanger fsEmptyRun OUTPUT_HEADER argsEmptyRun).1 ≠
      OUTPUT_HEADER
    ∧ (extract_from_sanger fsEmptyRun
        (extract_from_sanger fsEmptyRun OUTPUT_HEADER argsEmptyRun).1
        argsEmptyRun).2.2 =
      .ok ([String.intercalate "\t"
        (OUTPUT_HEADER ++ VARIANT_COUNT_HEADER ++ VARIANT_COUNT_HEADER)],
        [])
    ∧ (OUTPUT_HEADER ++ VARIANT_COUNT_HEADER ++
        VARIANT_COUNT_HEADER).count "Number of CNVs" = 2 := by
  refine ⟨rfl, ?_, rfl, by decide⟩
  intro h
  rw [show (extract_from_sanger fsEmptyRun OUTPUT_HEADER argsEmptyRun).1 =
    OUTPUT_HEADER ++ VARIANT_COUNT_HEADER from rfl] at h
  have hlen := congrArg List.length h
  exact absurd hlen (by decide)

end PpcgQc

